import Mathlib

/-!
Shallow embedding of the Registry Federation and Runtime-Client layer of
ghostpanel (crates/gpanel-core/src/registry.rs and crates/gpanel-core/src/bolt.rs).

Network I/O is modelled by oracle parameters: each HTTP request a method
issues is represented by a value describing its outcome (transport failure,
or a response with a status code together with the result of decoding the
body at the expected schema). Timestamps (chrono DateTime values) are
modelled as natural numbers; logging statements are elided.
-/

namespace GPanel

/-- Outcome of one HTTP round trip whose body is decoded as `α`:
`sendErr` models a transport-level failure of `send()` (the `?` on the
request), `resp status parsed` models a response with the given status code
whose body decoded to `some` value of the expected schema, or failed to
decode (`none`, the `?` on `response.json()`). -/
inductive HttpResult (α : Type) where
  | sendErr (msg : String)
  | resp (status : Nat) (parsed : Option α)
deriving DecidableEq, Repr

/-- Model of `reqwest::StatusCode::is_success`: status in 200..=299. -/
def statusIsSuccess (st : Nat) : Bool :=
  decide (200 ≤ st ∧ st < 300)

/-- Embeds `Descriptor` from registry.rs. -/
structure Descriptor where
  media_type : String
  size : Nat
  digest : String
  urls : Option (List String)
deriving DecidableEq, Repr

/-- Embeds `ImageManifest` from registry.rs. -/
structure ImageManifest where
  schema_version : Int
  media_type : String
  config : Descriptor
  layers : List Descriptor
deriving DecidableEq, Repr

/-- Embeds `RepositoryList` from registry.rs. -/
structure RepositoryList where
  repositories : List String
deriving DecidableEq, Repr

/-- Embeds `TagList` from registry.rs. -/
structure TagList where
  name : String
  tags : List String
deriving DecidableEq, Repr

/-- Embeds `LayerInfo` from registry.rs. -/
structure LayerInfo where
  digest : String
  size : Nat
  media_type : String
  created_by : Option String
deriving DecidableEq, Repr

/-- Embeds `ImageInfo` from registry.rs; the `created` DateTime is modelled
as a natural number. -/
structure ImageInfo where
  repository : String
  tag : String
  digest : String
  size : Nat
  created : Nat
  author : Option String
  layers : List LayerInfo
deriving DecidableEq, Repr

/-- Model of the config-blob JSON body as read by `get_image_info`: the body
is some JSON value (decoding to `serde_json::Value` fails only on non-JSON
bodies, which the surrounding `HttpResult` `none` case covers); `created`
holds the RFC3339-parsed timestamp when the `created` field is present, is a
string and parses, and `author` holds the `author` field when it is a
string. -/
structure ConfigBlob where
  created : Option Nat
  author : Option String
deriving DecidableEq, Repr

/-- Embeds the local `TokenResponse` struct inside `get_auth_token`. -/
structure TokenResponse where
  token : String
deriving DecidableEq, Repr

/-- Embeds `RegistryConfig` from registry.rs. -/
structure RegistryConfig where
  name : String
  url : String
  username : Option String
  password : Option String
  insecure : Bool
deriving DecidableEq, Repr

/-- Embeds `RegistryClient` from registry.rs: the reqwest client handle
carries no state we model, leaving the config and the cached token. -/
structure RegistryClient where
  config : RegistryConfig
  auth_token : Option String
deriving DecidableEq, Repr

/-- Embeds `RegistryClient::new`. -/
def RegistryClient.new (config : RegistryConfig) : RegistryClient :=
  { config := config, auth_token := none }

/-- Helper modelling `str::strip_prefix` at the character level: the
remainder of `l` after `key` when `key` leads `l`. -/
def stripKey : List Char → List Char → Option (List Char)
  | [], l => some l
  | _ :: _, [] => none
  | k :: ks, x :: xs => if x = k then stripKey ks xs else none

/-- Fuel-indexed helper for `removePat`: scan the list, dropping each
occurrence of the pattern (the replacement is empty in the source call).
The fuel is the original list length, which bounds the number of scan
steps. -/
def removePatAux (pat : List Char) : Nat → List Char → List Char
  | _, [] => []
  | 0, l => l
  | fuel + 1, x :: xs =>
    match stripKey pat (x :: xs) with
    | some rest => removePatAux pat fuel rest
    | none => x :: removePatAux pat fuel xs

/-- Model of `str::replace(pattern, "")` at the character level, used for
the nonempty pattern of the source (the Bearer marker). -/
def removePat (pat l : List Char) : List Char :=
  removePatAux pat l.length l

/-- Model of `str::split` at a separator character. -/
def splitOnChar (c : Char) : List Char → List (List Char)
  | [] => [[]]
  | x :: xs =>
    match splitOnChar c xs with
    | [] => [[]]
    | h :: t => if x = c then [] :: h :: t else (x :: h) :: t

/-- Whitespace test used by the trim model (the header values of the
source are ASCII, so the ASCII whitespace characters suffice). -/
def isWhitespaceChar (ch : Char) : Bool :=
  decide (ch = ' ' ∨ ch = Char.ofNat 9 ∨ ch = Char.ofNat 10 ∨ ch = Char.ofNat 13)

/-- Model of `str::trim` at the character level. -/
def trimChars (l : List Char) : List Char :=
  ((l.dropWhile isWhitespaceChar).reverse.dropWhile isWhitespaceChar).reverse

/-- The double-quote character, used by the challenge parser. -/
def quoteChar : Char := Char.ofNat 34

/-- Model of `str::trim_matches` at the double-quote character: drops every
leading and trailing double quote. -/
def trimQuoteChars (l : List Char) : List Char :=
  ((l.dropWhile (· = quoteChar)).reverse.dropWhile (· = quoteChar)).reverse

/-- Embeds the header parsing loop of `RegistryClient::get_auth_token`:
drop the Bearer marker, split on commas, trim each part, and record the
quote-stripped values of the realm and service parts (a later occurrence
overwrites an earlier one, as in the source loop). -/
def parseBearerChallenge (auth_header : String) : Option String × Option String :=
  let header_without_bearer := removePat "Bearer ".data auth_header.data
  (splitOnChar ',' header_without_bearer).foldl
    (fun acc part =>
      let part := trimChars part
      match stripKey "realm=".data part with
      | some value => (some (String.mk (trimQuoteChars value)), acc.2)
      | none =>
        match stripKey "service=".data part with
        | some value => (acc.1, some (String.mk (trimQuoteChars value)))
        | none => acc)
    (none, none)

/-- Embeds `RegistryClient::get_auth_token`. The token request (a GET on
the realm URL with basic auth from the credentials) is represented by the
oracle `tokenResp`; it is consulted only when both `realm` and `service`
were parsed from the challenge. Returns the token on a success status with
a decodable body, `none` when the challenge lacks realm or service or the
token endpoint answers with a non-success status, and an error on transport
failure or an undecodable success body. -/
def get_auth_token (auth_header _username _password : String)
    (tokenResp : HttpResult TokenResponse) : Except String (Option String) :=
  match parseBearerChallenge auth_header with
  | (some _realm, some _service) =>
    match tokenResp with
    | .sendErr m => .error m
    | .resp st parsed =>
      if statusIsSuccess st then
        match parsed with
        | some t => .ok (some t.token)
        | none => .error "json decode error"
      else .ok none
  | _ => .ok none

/-- Outcome of the unauthenticated probe request in `authenticate`: a
transport failure, or a response with its status and the value of the
WWW-Authenticate header when present (header values are modelled as
strings, so the `to_str` conversion always succeeds). -/
inductive ProbeResult where
  | sendErr (msg : String)
  | resp (status : Nat) (www_authenticate : Option String)
deriving DecidableEq, Repr

/-- Embeds `RegistryClient::authenticate`, returning the updated client.
With no credentials it does nothing. Otherwise it sends the probe; on a 401
with a WWW-Authenticate header it runs `get_auth_token` and stores the
token if one came back. Every other path falls through to success with the
client unchanged. -/
def authenticate (c : RegistryClient) (probe : ProbeResult)
    (tokenResp : HttpResult TokenResponse) : Except String RegistryClient :=
  match c.config.username, c.config.password with
  | some username, some password =>
    match probe with
    | .sendErr m => .error m
    | .resp st hdr =>
      if st = 401 then
        match hdr with
        | some auth_str =>
          match get_auth_token auth_str username password tokenResp with
          | .error e => .error e
          | .ok (some token) => .ok { c with auth_token := some token }
          | .ok none => .ok c
        | none => .ok c
      else .ok c
  | _, _ => .ok c

/-- Embeds `RegistryClient::list_repositories`: error on transport failure,
on a non-success status, or on an undecodable body; else the repository
list. -/
def list_repositories (r : HttpResult RepositoryList) : Except String (List String) :=
  match r with
  | .sendErr m => .error m
  | .resp st parsed =>
    if statusIsSuccess st then
      match parsed with
      | some repo_list => .ok repo_list.repositories
      | none => .error "json decode error"
    else .error ("Failed to list repositories: " ++ toString st)

/-- Embeds `RegistryClient::list_tags`. -/
def list_tags (repository : String) (r : HttpResult TagList) : Except String (List String) :=
  match r with
  | .sendErr m => .error m
  | .resp st parsed =>
    if statusIsSuccess st then
      match parsed with
      | some tag_list => .ok tag_list.tags
      | none => .error "json decode error"
    else .error ("Failed to list tags for " ++ repository ++ ": " ++ toString st)

/-- Embeds `RegistryClient::get_manifest`. -/
def get_manifest (repository tag : String) (r : HttpResult ImageManifest) :
    Except String ImageManifest :=
  match r with
  | .sendErr m => .error m
  | .resp st parsed =>
    if statusIsSuccess st then
      match parsed with
      | some manifest => .ok manifest
      | none => .error "json decode error"
    else .error ("Failed to get manifest for " ++ repository ++ ":" ++ tag ++ ": " ++ toString st)

/-- Embeds `RegistryClient::get_image_info`: fetch the manifest, sum the
layer sizes, fetch the config blob (whose response status the source never
inspects: only body decoding can fail there), read created and author
defensively (created defaults to now), and build the ImageInfo with
`created_by := none` on every layer. -/
def get_image_info (repository tag : String) (now : Nat)
    (manifestResp : HttpResult ImageManifest) (configResp : HttpResult ConfigBlob) :
    Except String ImageInfo :=
  match get_manifest repository tag manifestResp with
  | .error e => .error e
  | .ok manifest =>
    let total_size : Nat := (manifest.layers.map Descriptor.size).sum
    match configResp with
    | .sendErr m => .error m
    | .resp _st parsed =>
      match parsed with
      | none => .error "json decode error"
      | some config_data =>
        .ok { repository := repository
              tag := tag
              digest := manifest.config.digest
              size := total_size
              created := config_data.created.getD now
              author := config_data.author
              layers := manifest.layers.map fun layer =>
                { digest := layer.digest
                  size := layer.size
                  media_type := layer.media_type
                  created_by := none } }

/-- Embeds the layer-verification loop of `RegistryClient::pull_image`: a
HEAD request per layer digest, failing fast at the first transport failure
or non-success status and naming the missing digest. -/
def checkLayers (headResp : String → HttpResult Unit) : List Descriptor → Except String Unit
  | [] => .ok ()
  | layer :: rest =>
    match headResp layer.digest with
    | .sendErr m => .error m
    | .resp st _ =>
      if statusIsSuccess st then checkLayers headResp rest
      else .error ("Layer " ++ layer.digest ++ " not found")

/-- Embeds `RegistryClient::pull_image`: fetch the manifest, then verify
every layer blob with a HEAD request. -/
def pull_image (repository tag : String) (manifestResp : HttpResult ImageManifest)
    (headResp : String → HttpResult Unit) : Except String Unit :=
  match get_manifest repository tag manifestResp with
  | .error e => .error e
  | .ok manifest => checkLayers headResp manifest.layers

/-- Outcome of the manifest GET inside `delete_image`: a transport failure
or a response carrying its status and the Docker-Content-Digest header when
present (header values modelled as strings). -/
inductive HeaderResult where
  | sendErr (msg : String)
  | resp (status : Nat) (docker_content_digest : Option String)
deriving DecidableEq, Repr

/-- Embeds `RegistryClient::delete_image`. The second component records the
reference the DELETE request was issued against (`none` when no DELETE was
attempted). The source never inspects the status of the manifest GET, only
the presence of the digest header; the DELETE succeeds exactly on a success
status. -/
def delete_image (_repository _tag : String) (manifestResp : HeaderResult)
    (deleteResp : String → HttpResult Unit) : Except String Unit × Option String :=
  match manifestResp with
  | .sendErr m => (.error m, none)
  | .resp _st hdr =>
    match hdr with
    | some digest_str =>
      match deleteResp digest_str with
      | .sendErr m => (.error m, some digest_str)
      | .resp dst _ =>
        if statusIsSuccess dst then (.ok (), some digest_str)
        else (.error ("Failed to delete image: " ++ toString dst), some digest_str)
    | none => (.error "Could not get digest for image deletion", none)

/-- Model of `str::contains` used by the search filter: the query occurs as
a contiguous substring. -/
def strContains (s query : String) : Bool :=
  decide (query.data <:+: s.data)

/-- Network behavior of one registered registry as seen by `search_images`:
the catalog response, and the per-repository and per-tag responses consumed
by `list_tags` and `get_image_info`. -/
structure RegistryNet where
  catalogResp : HttpResult RepositoryList
  tagsResp : String → HttpResult TagList
  manifestResp : String → String → HttpResult ImageManifest
  configResp : String → String → HttpResult ConfigBlob

/-- Embeds `RegistryManager::search_images` over the registered registries
paired with their network behavior: for each registry list repositories,
keep those containing the query, and for each of their tags collect
`get_image_info`; every `if let Ok` of the source swallows the
corresponding failure, and the nested push loops are rendered as nested
flatMaps. The call itself always returns ok. -/
def search_images (regs : List (String × RegistryNet)) (now : Nat) (query : String) :
    Except String (List (String × ImageInfo)) :=
  .ok (regs.flatMap fun rc =>
    match list_repositories rc.2.catalogResp with
    | .error _ => []
    | .ok repositories =>
      repositories.flatMap fun repo =>
        if strContains repo query then
          match list_tags repo (rc.2.tagsResp repo) with
          | .error _ => []
          | .ok tags =>
            tags.flatMap fun tag =>
              match get_image_info repo tag now (rc.2.manifestResp repo tag)
                  (rc.2.configResp repo tag) with
              | .error _ => []
              | .ok image_info => [(rc.1, image_info)]
        else [])

/-- Association-list model of the `HashMap<String, RegistryClient>` held by
`RegistryManager`: `HashMap::insert` replaces the value when the key is
present and appends a fresh entry otherwise. -/
def mapInsert (k : String) (v : RegistryClient) :
    List (String × RegistryClient) → List (String × RegistryClient)
  | [] => [(k, v)]
  | (k₁, v₁) :: rest => if k₁ = k then (k, v) :: rest else (k₁, v₁) :: mapInsert k v rest

/-- Association-list model of `HashMap::get`. -/
def mapLookup (k : String) : List (String × RegistryClient) → Option RegistryClient
  | [] => none
  | (k₁, v₁) :: rest => if k₁ = k then some v₁ else mapLookup k rest

/-- Association-list model of `HashMap::remove`, dropping the first entry
at the key. -/
def mapRemove (k : String) :
    List (String × RegistryClient) → List (String × RegistryClient)
  | [] => []
  | (k₁, v₁) :: rest => if k₁ = k then rest else (k₁, v₁) :: mapRemove k rest

/-- Embeds `RegistryManager` from registry.rs. -/
structure RegistryManager where
  registries : List (String × RegistryClient)
deriving DecidableEq, Repr

/-- Embeds `RegistryManager::new`. -/
def RegistryManager.new : RegistryManager := { registries := [] }

/-- Embeds `RegistryManager::add_registry`: build a client from the config,
authenticate it eagerly (propagating failure via `?` before any mutation),
then insert it keyed by the config name. Returns the call result together
with the manager state after the call. -/
def add_registry (m : RegistryManager) (config : RegistryConfig)
    (probe : ProbeResult) (tokenResp : HttpResult TokenResponse) :
    Except String Unit × RegistryManager :=
  match authenticate (RegistryClient.new config) probe tokenResp with
  | .error e => (.error e, m)
  | .ok client => (.ok (), { registries := mapInsert config.name client m.registries })

/-- Embeds `RegistryManager::get_registry`. -/
def get_registry (m : RegistryManager) (name : String) : Option RegistryClient :=
  mapLookup name m.registries

/-- Embeds `RegistryManager::remove_registry`: whether an entry existed,
and the manager state after the removal. -/
def remove_registry (m : RegistryManager) (name : String) : Bool × RegistryManager :=
  ((mapLookup name m.registries).isSome, { registries := mapRemove name m.registries })

/-! Embedding of crates/gpanel-core/src/bolt.rs. The payload carried by the
`BoltResponse<T>` envelope is kept as a type parameter, standing for the
concrete Rust payload type of each method (`Vec<Container>`, `Container`,
`ContainerStats`, `()`). -/

/-- Embeds `BoltResponse<T>` from bolt.rs; the timestamp is modelled as a
natural number. -/
structure BoltResponse (α : Type) where
  success : Bool
  data : Option α
  error : Option String
  timestamp : Nat
deriving DecidableEq, Repr

/-- Model of the `serde_json::Value` payloads placed in the options map of
a container operation. -/
inductive JsonValue where
  | num (n : Nat)
  | str (s : String)
  | bool (b : Bool)
deriving DecidableEq, Repr

/-- Embeds `ContainerOperation` from bolt.rs; the
`HashMap<String, serde_json::Value>` options map is modelled as an
association list in insertion order. -/
structure ContainerOperation where
  action : String
  container_id : String
  options : Option (List (String × JsonValue))
deriving DecidableEq, Repr

/-- The operation envelope built by `container_operation` for a given
action, id and options map. -/
def container_operation_envelope (id action : String)
    (options : Option (List (String × JsonValue))) : ContainerOperation :=
  { action := action, container_id := id, options := options }

/-- Envelope posted by `BoltClient::start_container`. -/
def start_container_op (id : String) : ContainerOperation :=
  container_operation_envelope id "start" none

/-- Envelope posted by `BoltClient::stop_container`: a `timeout` entry is
inserted only when a timeout is given; the map itself is always passed. -/
def stop_container_op (id : String) (timeout : Option Nat) : ContainerOperation :=
  let options := match timeout with
    | some t => [("timeout", JsonValue.num t)]
    | none => []
  container_operation_envelope id "stop" (some options)

/-- Envelope posted by `BoltClient::restart_container`. -/
def restart_container_op (id : String) (timeout : Option Nat) : ContainerOperation :=
  let options := match timeout with
    | some t => [("timeout", JsonValue.num t)]
    | none => []
  container_operation_envelope id "restart" (some options)

/-- Envelope posted by `BoltClient::pause_container`. -/
def pause_container_op (id : String) : ContainerOperation :=
  container_operation_envelope id "pause" none

/-- Envelope posted by `BoltClient::unpause_container`. -/
def unpause_container_op (id : String) : ContainerOperation :=
  container_operation_envelope id "unpause" none

/-- Envelope posted by `BoltClient::kill_container`: a `signal` entry is
inserted only when a signal is given; the map itself is always passed. -/
def kill_container_op (id : String) (signal : Option String) : ContainerOperation :=
  let options := match signal with
    | some sig => [("signal", JsonValue.str sig)]
    | none => []
  container_operation_envelope id "kill" (some options)

/-- Envelope posted by `BoltClient::remove_container`: force and volumes
entries are always inserted. -/
def remove_container_op (id : String) (force remove_volumes : Bool) : ContainerOperation :=
  container_operation_envelope id "remove"
    (some [("force", JsonValue.bool force), ("volumes", JsonValue.bool remove_volumes)])

/-- Embeds the response handling of `BoltClient::container_operation`:
error on transport failure, on a non-success status, or on an undecodable
body; then error exactly when the envelope has `success = false` (the
`error` field is only quoted in the message, never tested). -/
def container_operation (action : String) (r : HttpResult (BoltResponse Unit)) :
    Except String Unit :=
  match r with
  | .sendErr m => .error m
  | .resp st parsed =>
    if statusIsSuccess st then
      match parsed with
      | none => .error "json decode error"
      | some bolt_response =>
        if bolt_response.success then .ok ()
        else .error ("Bolt operation failed: " ++ toString bolt_response.error)
    else .error ("Operation " ++ action ++ " failed: " ++ toString st)

/-- Embeds `BoltClient::stop_container` at the response level: the posted
envelope is `stop_container_op`, and the outcome is decided by
`container_operation`. -/
def stop_container (_id : String) (_timeout : Option Nat)
    (r : HttpResult (BoltResponse Unit)) : Except String Unit :=
  container_operation "stop" r

/-- Embeds the response handling of `BoltClient::list_containers` (the
payload type parameter stands for `Container`): error on transport failure,
non-success status, or undecodable body; then the call succeeds exactly
when the envelope carries data — its `success` flag is never tested. -/
def list_containers {α : Type} (r : HttpResult (BoltResponse (List α))) :
    Except String (List α) :=
  match r with
  | .sendErr m => .error m
  | .resp st parsed =>
    if statusIsSuccess st then
      match parsed with
      | none => .error "json decode error"
      | some bolt_response =>
        match bolt_response.data with
        | some containers => .ok containers
        | none => .error ("No containers in response: " ++ toString bolt_response.error)
    else .error ("Failed to list containers: " ++ toString st)

/-- Embeds the response handling of `BoltClient::get_container`. -/
def get_container {α : Type} (id : String) (r : HttpResult (BoltResponse α)) :
    Except String α :=
  match r with
  | .sendErr m => .error m
  | .resp st parsed =>
    if statusIsSuccess st then
      match parsed with
      | none => .error "json decode error"
      | some bolt_response =>
        match bolt_response.data with
        | some container => .ok container
        | none => .error ("No container data: " ++ toString bolt_response.error)
    else .error ("Container not found: " ++ id)

/-- Embeds the response handling of `BoltClient::create_container`. -/
def create_container {α : Type} (r : HttpResult (BoltResponse α)) : Except String α :=
  match r with
  | .sendErr m => .error m
  | .resp st parsed =>
    if statusIsSuccess st then
      match parsed with
      | none => .error "json decode error"
      | some bolt_response =>
        match bolt_response.data with
        | some container => .ok container
        | none => .error ("No container data in create response: " ++ toString bolt_response.error)
    else .error ("Failed to create container: " ++ toString st)

/-- Embeds the response handling of `BoltClient::get_container_stats` (the
payload type parameter stands for `ContainerStats`). -/
def get_container_stats {α : Type} (r : HttpResult (BoltResponse α)) : Except String α :=
  match r with
  | .sendErr m => .error m
  | .resp st parsed =>
    if statusIsSuccess st then
      match parsed with
      | none => .error "json decode error"
      | some bolt_response =>
        match bolt_response.data with
        | some stats => .ok stats
        | none => .error ("No stats data: " ++ toString bolt_response.error)
    else .error ("Failed to get stats: " ++ toString st)

/-- Embeds `MockBoltClient::stop_container`: the id and timeout are bound
but ignored, the artificial tokio sleep is elided, and the call always
resolves to success. -/
def mock_stop_container (_id : String) (_timeout : Option Nat) : Except String Unit :=
  .ok ()

/-! Concrete sample values used by witnesses and counterexamples. -/

/-- Sample config descriptor with a deliberately large size, excluded from
the image size computation. -/
def wConfigDesc : Descriptor :=
  { media_type := "application/vnd.docker.container.image.v1+json"
    size := 7000
    digest := "sha256:cfg"
    urls := none }

/-- Sample manifest whose layers have sizes 100 and 250. -/
def wManifest : ImageManifest :=
  { schema_version := 2
    media_type := "application/vnd.docker.distribution.manifest.v2+json"
    config := wConfigDesc
    layers :=
      [ { media_type := "layer", size := 100, digest := "sha256:l1", urls := none }
      , { media_type := "layer", size := 250, digest := "sha256:l2", urls := none } ] }

/-- Sample config blob with no created or author field. -/
def wConfigBlob : ConfigBlob := { created := none, author := none }

/-- Sample client with credentials configured. -/
def wAuthClient : RegistryClient :=
  RegistryClient.new
    { name := "r1"
      url := "https://registry.example"
      username := some "alice"
      password := some "secret"
      insecure := false }

/-- Network behavior of a registry that errors entirely. -/
def wNetDown : RegistryNet :=
  { catalogResp := .sendErr "connection timed out"
    tagsResp := fun _ => .sendErr "connection timed out"
    manifestResp := fun _ _ => .sendErr "connection timed out"
    configResp := fun _ _ => .sendErr "connection timed out" }

/-- Network behavior of a healthy registry holding one nginx repository
with two tags. -/
def wNetUp : RegistryNet :=
  { catalogResp := .resp 200 (some { repositories := ["nginx"] })
    tagsResp := fun repo =>
      if repo = "nginx" then .resp 200 (some { name := "nginx", tags := ["latest", "alpine"] })
      else .sendErr "no such repository"
    manifestResp := fun _ _ => .resp 200 (some wManifest)
    configResp := fun _ _ => .resp 200 (some wConfigBlob) }

/-- The two sample registries of the federation example. -/
def wRegs : List (String × RegistryNet) := [("A", wNetDown), ("B", wNetUp)]

/-- Image info produced from the sample manifest and config blob for a
given repository and tag. -/
def wImageInfo (repo tag : String) : ImageInfo :=
  { repository := repo
    tag := tag
    digest := "sha256:cfg"
    size := 350
    created := 0
    author := none
    layers :=
      [ { digest := "sha256:l1", size := 100, media_type := "layer", created_by := none }
      , { digest := "sha256:l2", size := 250, media_type := "layer", created_by := none } ] }

/-- Expected federated search results of the sample federation. -/
def wResults : List (String × ImageInfo) :=
  [("B", wImageInfo "nginx" "latest"), ("B", wImageInfo "nginx" "alpine")]

/-- Sample 2xx envelope reporting failure while still carrying data. -/
def wEnvFalseWithData : BoltResponse (List Unit) :=
  { success := false, data := some [()], error := some "boom", timestamp := 0 }

/-- Sample 2xx envelope reporting success with a stray error message. -/
def wEnvOkStrayError : BoltResponse Unit :=
  { success := true, data := none, error := some "warning", timestamp := 0 }

/-- Sample clean success envelope. -/
def wEnvOk : BoltResponse Unit :=
  { success := true, data := none, error := none, timestamp := 0 }

/-! Helper lemmas. -/

/-- Lookup after insert at the inserted key. -/
lemma mapLookup_mapInsert_self (k : String) (v : RegistryClient)
    (l : List (String × RegistryClient)) : mapLookup k (mapInsert k v l) = some v := by
  induction l with
  | nil => simp [mapInsert, mapLookup]
  | cons hd tl ih =>
    obtain ⟨k₁, v₁⟩ := hd
    by_cases h : k₁ = k <;> simp [mapInsert, mapLookup, h, ih]

/-- Lookup after insert at a different key. -/
lemma mapLookup_mapInsert_ne (k n : String) (v : RegistryClient)
    (l : List (String × RegistryClient)) (h : n ≠ k) :
    mapLookup n (mapInsert k v l) = mapLookup n l := by
  induction l with
  | nil => simp [mapInsert, mapLookup, Ne.symm h]
  | cons hd tl ih =>
    obtain ⟨k₁, v₁⟩ := hd
    by_cases h₁ : k₁ = k
    · subst h₁
      simp [mapInsert, mapLookup, Ne.symm h]
    · simp only [mapInsert, h₁, if_false, mapLookup]
      by_cases h₂ : k₁ = n <;> simp [h₂, ih]

/-- Keys appearing after an insert. -/
lemma mem_keys_mapInsert (k n : String) (v : RegistryClient)
    (l : List (String × RegistryClient)) :
    n ∈ (mapInsert k v l).map Prod.fst ↔ n = k ∨ n ∈ l.map Prod.fst := by
  induction l with
  | nil => simp [mapInsert]
  | cons hd tl ih =>
    obtain ⟨k₁, v₁⟩ := hd
    by_cases h : k₁ = k
    · subst h
      rw [show mapInsert k₁ v ((k₁, v₁) :: tl) = (k₁, v) :: tl from by simp [mapInsert]]
      simp only [List.map_cons, List.mem_cons]
      tauto
    · rw [show mapInsert k v ((k₁, v₁) :: tl) = (k₁, v₁) :: mapInsert k v tl from by
        simp [mapInsert, h]]
      simp only [List.map_cons, List.mem_cons, ih]
      tauto

/-- Insert preserves distinctness of keys. -/
lemma mapInsert_keys_nodup (k : String) (v : RegistryClient)
    (l : List (String × RegistryClient)) (h : (l.map Prod.fst).Nodup) :
    ((mapInsert k v l).map Prod.fst).Nodup := by
  induction l with
  | nil => simp [mapInsert]
  | cons hd tl ih =>
    obtain ⟨k₁, v₁⟩ := hd
    simp only [List.map_cons, List.nodup_cons] at h
    by_cases hk : k₁ = k
    · subst hk
      simpa [mapInsert] using h
    · simp only [mapInsert, hk, if_false, List.map_cons, List.nodup_cons]
      refine ⟨?_, ih h.2⟩
      rw [mem_keys_mapInsert]
      rintro (rfl | hmem)
      · exact hk rfl
      · exact h.1 hmem

/-- The keys remaining after a removal form a sublist of the original keys. -/
lemma mapRemove_keys_sublist (k : String) (l : List (String × RegistryClient)) :
    ((mapRemove k l).map Prod.fst).Sublist (l.map Prod.fst) := by
  induction l with
  | nil => simp [mapRemove]
  | cons hd tl ih =>
    obtain ⟨k₁, v₁⟩ := hd
    by_cases h : k₁ = k
    · simp only [mapRemove, h, if_true, List.map_cons]
      exact (List.sublist_cons_self _ _)
    · simp only [mapRemove, h, if_false, List.map_cons]
      exact ih.cons₂ k₁

/-- Removal preserves distinctness of keys. -/
lemma mapRemove_keys_nodup (k : String) (l : List (String × RegistryClient))
    (h : (l.map Prod.fst).Nodup) : ((mapRemove k l).map Prod.fst).Nodup :=
  (mapRemove_keys_sublist k l).nodup h

/-! Claim theorems. -/

/-- Claim C7: whenever `get_image_info` succeeds, the returned ImageInfo
has size equal to the sum of the sizes of the layer descriptors of the
manifest it fetched, the config blob size excluded (the config response is
universally quantified, so the result is independent of it). -/
theorem C7_image_size_is_layer_sum (repository tag : String) (now : Nat)
    (manifestResp : HttpResult ImageManifest) (configResp : HttpResult ConfigBlob)
    (manifest : ImageManifest) (info : ImageInfo)
    (hm : get_manifest repository tag manifestResp = .ok manifest)
    (hi : get_image_info repository tag now manifestResp configResp = .ok info) :
    info.size = (manifest.layers.map Descriptor.size).sum := by
  unfold get_image_info at hi
  rw [hm] at hi
  cases configResp with
  | sendErr m => simp at hi
  | resp st parsed =>
    cases parsed with
    | none => simp at hi
    | some config_data =>
      simp only [Except.ok.injEq] at hi
      rw [← hi]

/-- Witness for C7: a manifest with layers of sizes 100 and 250 and a
config blob of size 7000 yields an image info of size 350. -/
theorem C7_witness :
    get_manifest "myrepo" "v1" (.resp 200 (some wManifest)) = .ok wManifest ∧
    get_image_info "myrepo" "v1" 0 (.resp 200 (some wManifest)) (.resp 200 (some wConfigBlob)) =
      .ok (wImageInfo "myrepo" "v1") ∧
    (wImageInfo "myrepo" "v1").size = (wManifest.layers.map Descriptor.size).sum :=
  ⟨rfl, by rfl,
    C7_image_size_is_layer_sum "myrepo" "v1" 0 (.resp 200 (some wManifest))
      (.resp 200 (some wConfigBlob)) wManifest (wImageInfo "myrepo" "v1") rfl (by rfl)⟩

/-- Claim C4: when authentication fails during `add_registry`, the failure
is returned to the caller and the registry map is exactly as before the
call; the new client is inserted only when authentication succeeds. -/
theorem C4_add_registry_auth_failure_atomic (m : RegistryManager) (config : RegistryConfig)
    (probe : ProbeResult) (tokenResp : HttpResult TokenResponse) :
    (∀ e, authenticate (RegistryClient.new config) probe tokenResp = .error e →
      add_registry m config probe tokenResp = (.error e, m)) ∧
    (∀ client, authenticate (RegistryClient.new config) probe tokenResp = .ok client →
      add_registry m config probe tokenResp =
        (.ok (), { registries := mapInsert config.name client m.registries })) := by
  constructor
  · intro e he
    simp [add_registry, he]
  · intro client hc
    simp [add_registry, hc]

/-- Witness for C4: a transport failure during the probe aborts
registration and leaves a one-entry manager unchanged. -/
theorem C4_witness :
    authenticate (RegistryClient.new wAuthClient.config) (.sendErr "connection refused")
      (.resp 200 none) = .error "connection refused" ∧
    add_registry { registries := [("other", wAuthClient)] } wAuthClient.config
      (.sendErr "connection refused") (.resp 200 none) =
      (.error "connection refused", { registries := [("other", wAuthClient)] }) :=
  ⟨rfl,
    (C4_add_registry_auth_failure_atomic { registries := [("other", wAuthClient)] }
      wAuthClient.config (.sendErr "connection refused") (.resp 200 none)).1
      "connection refused" rfl⟩

/-- Claim C10: a successful `add_registry` leaves exactly the new client
under the config name (last write wins on collision), leaves every other
name untouched, and the at-most-one-client-per-name invariant (distinct
keys) is preserved by `add_registry` and `remove_registry`. -/
theorem C10_add_registry_last_write_wins (m : RegistryManager) (config : RegistryConfig)
    (probe : ProbeResult) (tokenResp : HttpResult TokenResponse) (client : RegistryClient)
    (hauth : authenticate (RegistryClient.new config) probe tokenResp = .ok client) :
    get_registry (add_registry m config probe tokenResp).2 config.name = some client ∧
    (∀ n, n ≠ config.name →
      get_registry (add_registry m config probe tokenResp).2 n = get_registry m n) ∧
    ((m.registries.map Prod.fst).Nodup →
      (((add_registry m config probe tokenResp).2).registries.map Prod.fst).Nodup) ∧
    (∀ name, (m.registries.map Prod.fst).Nodup →
      (((remove_registry m name).2).registries.map Prod.fst).Nodup) := by
  have hadd : (add_registry m config probe tokenResp).2 =
      { registries := mapInsert config.name client m.registries } := by
    simp [add_registry, hauth]
  refine ⟨?_, ?_, ?_, ?_⟩
  · rw [hadd]
    exact mapLookup_mapInsert_self config.name client m.registries
  · intro n hn
    rw [hadd]
    exact mapLookup_mapInsert_ne config.name n client m.registries hn
  · intro hnd
    rw [hadd]
    exact mapInsert_keys_nodup config.name client m.registries hnd
  · intro name hnd
    exact mapRemove_keys_nodup name m.registries hnd

/-- Witness for C10: adding a registry whose name collides with an existing
entry replaces it, leaves the other entry unchanged, and keeps the keys
distinct. -/
theorem C10_witness :
    authenticate (RegistryClient.new wAuthClient.config) (.resp 200 none) (.resp 200 none) =
      .ok (RegistryClient.new wAuthClient.config) ∧
    get_registry (add_registry
        { registries := [("r1", wAuthClient), ("other", wAuthClient)] }
        wAuthClient.config (.resp 200 none) (.resp 200 none)).2 "r1" =
      some (RegistryClient.new wAuthClient.config) ∧
    get_registry (add_registry
        { registries := [("r1", wAuthClient), ("other", wAuthClient)] }
        wAuthClient.config (.resp 200 none) (.resp 200 none)).2 "other" =
      get_registry { registries := [("r1", wAuthClient), ("other", wAuthClient)] } "other" := by
  have h := C10_add_registry_last_write_wins
    { registries := [("r1", wAuthClient), ("other", wAuthClient)] }
    wAuthClient.config (.resp 200 none) (.resp 200 none)
    (RegistryClient.new wAuthClient.config) (by rfl)
  exact ⟨by rfl, h.1, h.2.1 "other" (by decide)⟩

/-- Claim C8: when the manifest response of `delete_image` lacks the
Docker-Content-Digest header the call fails with the descriptive error and
no DELETE request is issued (second component none); when the header is
present, the DELETE that is issued targets exactly the digest taken from
the header, never the tag. -/
theorem C8_delete_by_header_digest (repository tag : String) :
    (∀ m dresp, delete_image repository tag (.sendErr m) dresp = (.error m, none)) ∧
    (∀ st dresp, delete_image repository tag (.resp st none) dresp =
      (.error "Could not get digest for image deletion", none)) ∧
    (∀ st d dresp, (delete_image repository tag (.resp st (some d)) dresp).2 = some d) := by
  refine ⟨fun m dresp => rfl, fun st dresp => rfl, fun st d dresp => ?_⟩
  cases h : dresp d with
  | sendErr m => simp [delete_image, h]
  | resp dst p => by_cases hs : statusIsSuccess dst = true <;> simp [delete_image, h, hs]

/-- Witness for C8: a concrete manifest response without the digest header
fails without a DELETE, and one carrying a digest leads to a DELETE against
that digest rather than the tag. -/
theorem C8_witness :
    delete_image "myrepo" "v1" (.resp 200 none) (fun _ => .resp 202 none) =
      (.error "Could not get digest for image deletion", none) ∧
    (delete_image "myrepo" "v1" (.resp 200 (some "sha256:abc"))
      (fun _ => .resp 202 none)).2 = some "sha256:abc" :=
  ⟨(C8_delete_by_header_digest "myrepo" "v1").2.1 200 (fun _ => .resp 202 none),
   (C8_delete_by_header_digest "myrepo" "v1").2.2 200 "sha256:abc" (fun _ => .resp 202 none)⟩

/-- Claim C6 counterexample: the claim says every action other than remove
and stop/restart sends an empty or absent options field, but
`kill_container` with a signal attaches a non-empty signal option. -/
theorem C6_counterexample :
    (kill_container_op "c1" (some "SIGKILL")).options =
      some [("signal", JsonValue.str "SIGKILL")] ∧
    some [("signal", JsonValue.str "SIGKILL")] ≠
      (none : Option (List (String × JsonValue))) ∧
    [("signal", JsonValue.str "SIGKILL")] ≠ ([] : List (String × JsonValue)) := by
  refine ⟨rfl, ?_, ?_⟩ <;> decide

/-- Claim C6 amended: the lifecycle operations routed through the generic
envelope attach extra options as follows: start, pause and unpause always
send an absent options field; stop and restart send a map holding exactly a
timeout entry when a timeout is given and an empty map otherwise; kill
sends a map holding exactly a signal entry when a signal is given and an
empty map otherwise; remove always sends exactly the force and volumes
entries. -/
theorem C6_options_by_action :
    (∀ id, (start_container_op id).options = none) ∧
    (∀ id, (pause_container_op id).options = none) ∧
    (∀ id, (unpause_container_op id).options = none) ∧
    (∀ id, (stop_container_op id none).options = some []) ∧
    (∀ id t, (stop_container_op id (some t)).options = some [("timeout", JsonValue.num t)]) ∧
    (∀ id, (restart_container_op id none).options = some []) ∧
    (∀ id t, (restart_container_op id (some t)).options =
      some [("timeout", JsonValue.num t)]) ∧
    (∀ id, (kill_container_op id none).options = some []) ∧
    (∀ id s, (kill_container_op id (some s)).options = some [("signal", JsonValue.str s)]) ∧
    (∀ id f v, (remove_container_op id f v).options =
      some [("force", JsonValue.bool f), ("volumes", JsonValue.bool v)]) :=
  ⟨fun _ => rfl, fun _ => rfl, fun _ => rfl, fun _ => rfl, fun _ _ => rfl, fun _ => rfl,
   fun _ _ => rfl, fun _ => rfl, fun _ _ => rfl, fun _ _ _ => rfl⟩

/-- Claim C9 counterexample: the claim says that for an unknown id both the
real client and the in-memory substitute return a not-found error, but the
mock ignores the id and resolves to success. -/
theorem C9_counterexample :
    mock_stop_container "no-such-container" (some 30) = .ok () ∧
    (mock_stop_container "no-such-container" (some 30)).isOk = true :=
  ⟨rfl, rfl⟩

/-- Claim C9 amended: both stop operations accept the identical (id,
optional timeout) request shape; when the runtime reports success (2xx with
a success envelope) the real client resolves to success, and for an unknown
id the real client surfaces the not-found failure of the 404 response while
the mock still resolves to success for every id. -/
theorem C9_stop_divergence :
    (∀ id timeout, mock_stop_container id timeout = .ok ()) ∧
    (∀ id timeout st env, statusIsSuccess st = true → env.success = true →
      stop_container id timeout (.resp st (some env)) = .ok ()) ∧
    (∀ id timeout p, stop_container id timeout (.resp 404 p) =
      .error ("Operation stop failed: " ++ toString 404)) := by
  refine ⟨fun _ _ => rfl, ?_, ?_⟩
  · intro id timeout st env hst henv
    simp [stop_container, container_operation, hst, henv]
  · intro id timeout p
    simp [stop_container, container_operation, statusIsSuccess]

/-- Witness for C9: concrete success and not-found responses. -/
theorem C9_witness :
    statusIsSuccess 200 = true ∧
    stop_container "web" (some 30)
      (.resp 200 (some { success := true, data := none, error := none, timestamp := 0 })) =
      .ok () ∧
    stop_container "no-such-container" (some 30) (.resp 404 none) =
      .error ("Operation stop failed: " ++ toString 404) :=
  ⟨by decide,
   (C9_stop_divergence).2.1 "web" (some 30) 200
     { success := true, data := none, error := none, timestamp := 0 } (by decide) rfl,
   (C9_stop_divergence).2.2 "no-such-container" (some 30) none⟩

/-- Claim C3 counterexample: with both credentials configured, the claim
says authenticate fails with an Auth error when the challenge cannot be
parsed (header absent, or lacking realm or service) or when the token
endpoint rejects the credentials; the code instead returns success with the
client unchanged in all three situations. -/
theorem C3_counterexample :
    authenticate wAuthClient (.resp 401 none) (.resp 200 none) = .ok wAuthClient ∧
    (authenticate wAuthClient (.resp 401 none) (.resp 200 none)).isOk = true ∧
    authenticate wAuthClient (.resp 401 (some "Bearer service=registry.example"))
      (.resp 200 none) = .ok wAuthClient ∧
    authenticate wAuthClient
      (.resp 401 (some "Bearer realm=\"https://auth.example/token\", service=\"registry.example\""))
      (.resp 401 none) = .ok wAuthClient := by
  refine ⟨rfl, rfl, by rfl, by rfl⟩

/-- Claim C3 amended: with both credentials configured, an unparseable
bearer challenge (absent header, or a header lacking realm or service) and
a credential rejection by the token endpoint (non-success status) do not
produce an error: authenticate silently succeeds with the client unchanged
and no token stored; it does not retry. -/
theorem C3_auth_silent_fallthrough (c : RegistryClient) (u p : String)
    (hu : c.config.username = some u) (hp : c.config.password = some p) :
    (∀ tokenResp, authenticate c (.resp 401 none) tokenResp = .ok c) ∧
    (∀ h tokenResp,
      ((parseBearerChallenge h).1 = none ∨ (parseBearerChallenge h).2 = none) →
      authenticate c (.resp 401 (some h)) tokenResp = .ok c) ∧
    (∀ h r s st parsed, parseBearerChallenge h = (some r, some s) →
      statusIsSuccess st = false →
      authenticate c (.resp 401 (some h)) (.resp st parsed) = .ok c) := by
  refine ⟨?_, ?_, ?_⟩
  · intro tokenResp
    simp [authenticate, hu, hp]
  · intro h tokenResp hparse
    have hga : ∀ u₁ p₁, get_auth_token h u₁ p₁ tokenResp = .ok none := by
      intro u₁ p₁
      rcases hpc : parseBearerChallenge h with ⟨ro, so⟩
      rw [hpc] at hparse
      rcases hparse with h₁ | h₁
      · simp only at h₁
        subst h₁
        simp [get_auth_token, hpc]
      · simp only at h₁
        subst h₁
        cases ro <;> simp [get_auth_token, hpc]
    simp [authenticate, hu, hp, hga]
  · intro h r s st parsed hpc hst
    have hga : ∀ u₁ p₁, get_auth_token h u₁ p₁ (.resp st parsed) = .ok none := by
      intro u₁ p₁
      simp [get_auth_token, hpc, hst]
    simp [authenticate, hu, hp, hga]

/-- Witness for C3 amended: concrete client with credentials, a challenge
lacking realm, and a rejecting token endpoint. -/
theorem C3_witness :
    wAuthClient.config.username = some "alice" ∧
    wAuthClient.config.password = some "secret" ∧
    (parseBearerChallenge "Bearer service=registry.example").1 = none ∧
    authenticate wAuthClient (.resp 401 (some "Bearer service=registry.example"))
      (.resp 200 none) = .ok wAuthClient :=
  ⟨rfl, rfl, by rfl,
   (C3_auth_silent_fallthrough wAuthClient "alice" "secret" rfl rfl).2.1
     "Bearer service=registry.example" (.resp 200 none) (Or.inl (by rfl))⟩

/-- Claim C2 counterexample: the claim says no method returns success for a
2xx response whose envelope carries success equal to false, but
`list_containers` ignores the success flag whenever data is present, and
the generic operation returns success despite a present error field. -/
theorem C2_counterexample :
    list_containers (.resp 200 (some wEnvFalseWithData)) = .ok [()] ∧
    container_operation "start" (.resp 200 (some wEnvOkStrayError)) = .ok () :=
  ⟨rfl, rfl⟩

/-- Claim C2 amended: the generic container action fails exactly on a
transport failure, a non-2xx status, an undecodable body, or an envelope
with success equal to false (a present error field alone is not a failure);
the data-returning methods (list, get, create, stats) fail exactly on a
transport failure, a non-2xx status, an undecodable body, or an absent data
field — they never consult the success flag or the error field. -/
theorem C2_envelope_handling :
    (∀ action m, (container_operation action (.sendErr m)).isOk = false) ∧
    (∀ action st, (container_operation action (.resp st none)).isOk = false) ∧
    (∀ action st env, (container_operation action (.resp st (some env))).isOk =
      (statusIsSuccess st && env.success)) ∧
    (∀ (α : Type) m, (@list_containers α (.sendErr m)).isOk = false) ∧
    (∀ (α : Type) st, (@list_containers α (.resp st none)).isOk = false) ∧
    (∀ (α : Type) st env, (@list_containers α (.resp st (some env))).isOk =
      (statusIsSuccess st && env.data.isSome)) ∧
    (∀ (α : Type) (id : String) m, (@get_container α id (.sendErr m)).isOk = false) ∧
    (∀ (α : Type) (id : String) st, (@get_container α id (.resp st none)).isOk = false) ∧
    (∀ (α : Type) (id : String) st env,
      (@get_container α id (.resp st (some env))).isOk =
        (statusIsSuccess st && env.data.isSome)) ∧
    (∀ (α : Type) m, (@create_container α (.sendErr m)).isOk = false) ∧
    (∀ (α : Type) st, (@create_container α (.resp st none)).isOk = false) ∧
    (∀ (α : Type) st env, (@create_container α (.resp st (some env))).isOk =
      (statusIsSuccess st && env.data.isSome)) ∧
    (∀ (α : Type) m, (@get_container_stats α (.sendErr m)).isOk = false) ∧
    (∀ (α : Type) st, (@get_container_stats α (.resp st none)).isOk = false) ∧
    (∀ (α : Type) st env, (@get_container_stats α (.resp st (some env))).isOk =
      (statusIsSuccess st && env.data.isSome)) := by
  refine ⟨fun action m => rfl, ?_, ?_, fun α m => rfl, ?_, ?_, fun α id m => rfl, ?_, ?_,
    fun α m => rfl, ?_, ?_, fun α m => rfl, ?_, ?_⟩
  · intro action st
    cases hst : statusIsSuccess st <;>
      simp [container_operation, hst, Except.isOk, Except.toBool]
  · intro action st env
    cases hst : statusIsSuccess st <;> cases hs : env.success <;>
      simp [container_operation, hst, hs, Except.isOk, Except.toBool]
  · intro α st
    cases hst : statusIsSuccess st <;>
      simp [list_containers, hst, Except.isOk, Except.toBool]
  · intro α st env
    cases hst : statusIsSuccess st <;> cases hd : env.data <;>
      simp [list_containers, hst, hd, Except.isOk, Except.toBool]
  · intro α id st
    cases hst : statusIsSuccess st <;>
      simp [get_container, hst, Except.isOk, Except.toBool]
  · intro α id st env
    cases hst : statusIsSuccess st <;> cases hd : env.data <;>
      simp [get_container, hst, hd, Except.isOk, Except.toBool]
  · intro α st
    cases hst : statusIsSuccess st <;>
      simp [create_container, hst, Except.isOk, Except.toBool]
  · intro α st env
    cases hst : statusIsSuccess st <;> cases hd : env.data <;>
      simp [create_container, hst, hd, Except.isOk, Except.toBool]
  · intro α st
    cases hst : statusIsSuccess st <;>
      simp [get_container_stats, hst, Except.isOk, Except.toBool]
  · intro α st env
    cases hst : statusIsSuccess st <;> cases hd : env.data <;>
      simp [get_container_stats, hst, hd, Except.isOk, Except.toBool]

/-- Witness for C2 amended: a concrete 2xx response with a success envelope
makes the generic operation succeed, and a 2xx envelope with data but
success false still makes list succeed. -/
theorem C2_witness :
    (container_operation "start" (.resp 200 (some wEnvOk))).isOk =
      (statusIsSuccess 200 && wEnvOk.success) ∧
    (list_containers (.resp 200 (some wEnvFalseWithData))).isOk =
      (statusIsSuccess 200 && wEnvFalseWithData.data.isSome) :=
  ⟨C2_envelope_handling.2.2.1 "start" 200 wEnvOk,
   C2_envelope_handling.2.2.2.2.2.1 Unit 200 wEnvFalseWithData⟩

/-- Layer verification succeeds exactly when every layer HEAD request came
back with a success status. -/
lemma checkLayers_isOk_iff (hr : String → HttpResult Unit) (ls : List Descriptor) :
    (checkLayers hr ls).isOk = true ↔
      ∀ layer ∈ ls, ∃ st p, hr layer.digest = .resp st p ∧ statusIsSuccess st = true := by
  induction ls with
  | nil => simp [checkLayers, Except.isOk, Except.toBool]
  | cons l rest ih =>
    cases hh : hr l.digest with
    | sendErr m =>
      simp only [checkLayers, hh, List.forall_mem_cons]
      constructor
      · intro h
        exact absurd h (by simp [Except.isOk, Except.toBool])
      · intro h
        obtain ⟨st, p, hsp, _⟩ := h.1
        exact absurd hsp (by simp)
    | resp st p =>
      by_cases hst : statusIsSuccess st = true
      · simp only [checkLayers, hh, hst, if_true, ih, List.forall_mem_cons]
        constructor
        · intro h
          exact ⟨⟨st, p, rfl, hst⟩, h⟩
        · intro h
          exact h.2
      · simp only [checkLayers, hh, List.forall_mem_cons]
        rw [if_neg hst]
        constructor
        · intro h
          exact absurd h (by simp [Except.isOk, Except.toBool])
        · intro h
          obtain ⟨st₂, p₂, hsp, hs₂⟩ := h.1
          injection hsp with h₁ h₂
          exact absurd (h₁ ▸ hs₂) hst

/-- Claim C5 counterexample: the claim says get_image_info fails when the
config-blob fetch returns a non-success status, but a 404 config response
whose body is JSON leaves the call fully successful. -/
theorem C5_counterexample :
    statusIsSuccess 404 = false ∧
    get_image_info "myrepo" "v1" 0 (.resp 200 (some wManifest))
      (.resp 404 (some wConfigBlob)) = .ok (wImageInfo "myrepo" "v1") :=
  ⟨by decide, by rfl⟩

/-- Claim C5 amended: list_repositories, list_tags, get_manifest, the
manifest fetch inside get_image_info and pull_image, and the DELETE inside
delete_image fail on any transport failure, non-success status or
undecodable body; but get_image_info ignores the status of its config-blob
fetch (failing there only on a transport failure or a non-JSON body), and
delete_image ignores the status of its manifest fetch (relying only on the
digest header). -/
theorem C5_error_policy :
    (∀ m, (list_repositories (.sendErr m)).isOk = false) ∧
    (∀ st, (list_repositories (.resp st none)).isOk = false) ∧
    (∀ st x, (list_repositories (.resp st (some x))).isOk = statusIsSuccess st) ∧
    (∀ repo m, (list_tags repo (.sendErr m)).isOk = false) ∧
    (∀ repo st, (list_tags repo (.resp st none)).isOk = false) ∧
    (∀ repo st x, (list_tags repo (.resp st (some x))).isOk = statusIsSuccess st) ∧
    (∀ repo tag m, (get_manifest repo tag (.sendErr m)).isOk = false) ∧
    (∀ repo tag st, (get_manifest repo tag (.resp st none)).isOk = false) ∧
    (∀ repo tag st x, (get_manifest repo tag (.resp st (some x))).isOk = statusIsSuccess st) ∧
    (∀ repo tag now mr cr m, get_manifest repo tag mr = .error m →
      (get_image_info repo tag now mr cr).isOk = false) ∧
    (∀ repo tag now mr mf m, get_manifest repo tag mr = .ok mf →
      (get_image_info repo tag now mr (.sendErr m)).isOk = false) ∧
    (∀ repo tag now mr mf st, get_manifest repo tag mr = .ok mf →
      (get_image_info repo tag now mr (.resp st none)).isOk = false) ∧
    (∀ repo tag now mr mf st cfg, get_manifest repo tag mr = .ok mf →
      (get_image_info repo tag now mr (.resp st (some cfg))).isOk = true) ∧
    (∀ repo tag mr hr m, get_manifest repo tag mr = .error m →
      (pull_image repo tag mr hr).isOk = false) ∧
    (∀ repo tag mr hr mf, get_manifest repo tag mr = .ok mf →
      ((pull_image repo tag mr hr).isOk = true ↔
        ∀ layer ∈ mf.layers, ∃ st p, hr layer.digest = .resp st p ∧
          statusIsSuccess st = true)) ∧
    (∀ repo tag st dresp, ((delete_image repo tag (.resp st none) dresp).1).isOk = false) ∧
    (∀ repo tag st d m dresp, dresp d = .sendErr m →
      ((delete_image repo tag (.resp st (some d)) dresp).1).isOk = false) ∧
    (∀ repo tag st d dst p dresp, dresp d = .resp dst p →
      ((delete_image repo tag (.resp st (some d)) dresp).1).isOk = statusIsSuccess dst) := by
  refine ⟨fun m => rfl, ?_, ?_, fun repo m => rfl, ?_, ?_, fun repo tag m => rfl, ?_, ?_,
    ?_, ?_, ?_, ?_, ?_, ?_, fun repo tag st dresp => rfl, ?_, ?_⟩
  · intro st
    cases hst : statusIsSuccess st <;>
      simp [list_repositories, hst, Except.isOk, Except.toBool]
  · intro st x
    cases hst : statusIsSuccess st <;>
      simp [list_repositories, hst, Except.isOk, Except.toBool]
  · intro repo st
    cases hst : statusIsSuccess st <;>
      simp [list_tags, hst, Except.isOk, Except.toBool]
  · intro repo st x
    cases hst : statusIsSuccess st <;>
      simp [list_tags, hst, Except.isOk, Except.toBool]
  · intro repo tag st
    cases hst : statusIsSuccess st <;>
      simp [get_manifest, hst, Except.isOk, Except.toBool]
  · intro repo tag st x
    cases hst : statusIsSuccess st <;>
      simp [get_manifest, hst, Except.isOk, Except.toBool]
  · intro repo tag now mr cr m h
    simp [get_image_info, h, Except.isOk, Except.toBool]
  · intro repo tag now mr mf m h
    simp [get_image_info, h, Except.isOk, Except.toBool]
  · intro repo tag now mr mf st h
    simp [get_image_info, h, Except.isOk, Except.toBool]
  · intro repo tag now mr mf st cfg h
    simp [get_image_info, h, Except.isOk, Except.toBool]
  · intro repo tag mr hr m h
    simp [pull_image, h, Except.isOk, Except.toBool]
  · intro repo tag mr hr mf h
    rw [show pull_image repo tag mr hr = checkLayers hr mf.layers from by
      simp [pull_image, h]]
    exact checkLayers_isOk_iff hr mf.layers
  · intro repo tag st d m dresp h
    simp [delete_image, h, Except.isOk, Except.toBool]
  · intro repo tag st d dst p dresp h
    cases hdst : statusIsSuccess dst <;>
      simp [delete_image, h, hdst, Except.isOk, Except.toBool]

/-- Witness for C5 amended: with a good manifest, a concrete 404 config
response with a JSON body still leaves get_image_info successful. -/
theorem C5_witness :
    get_manifest "myrepo" "v1" (.resp 200 (some wManifest)) = .ok wManifest ∧
    (get_image_info "myrepo" "v1" 0 (.resp 200 (some wManifest))
      (.resp 404 (some wConfigBlob))).isOk = true :=
  ⟨rfl,
   C5_error_policy.2.2.2.2.2.2.2.2.2.2.2.2.1 "myrepo" "v1" 0
     (.resp 200 (some wManifest)) wManifest 404 wConfigBlob rfl⟩

/-- Claim C1: search_images always returns success, and its result set is
exactly (as membership) the union over the registered registries of the
image infos successfully collected: a pair is in the result exactly when
some registry under that name lists repositories successfully, one of them
contains the query as a substring, its tags list successfully, and
get_image_info succeeds for one of the tags with that info; every failing
item contributes nothing without aborting the call. -/
theorem C1_search_images_union (regs : List (String × RegistryNet)) (now : Nat)
    (query : String) :
    (search_images regs now query).isOk = true ∧
    (∀ rs, search_images regs now query = .ok rs →
      ∀ rname info, ((rname, info) ∈ rs ↔
        ∃ net, (rname, net) ∈ regs ∧
          ∃ repos, list_repositories net.catalogResp = .ok repos ∧
            ∃ repo, repo ∈ repos ∧ strContains repo query = true ∧
              ∃ tags, list_tags repo (net.tagsResp repo) = .ok tags ∧
                ∃ tag, tag ∈ tags ∧
                  get_image_info repo tag now (net.manifestResp repo tag)
                    (net.configResp repo tag) = .ok info)) := by
  constructor
  · rfl
  · intro rs h rname info
    simp only [search_images, Except.ok.injEq] at h
    subst h
    constructor
    · intro hmem
      rw [List.mem_flatMap] at hmem
      obtain ⟨⟨n, net⟩, hreg, hbody⟩ := hmem
      rcases hrep : list_repositories net.catalogResp with e | repos
      · rw [hrep] at hbody
        simp at hbody
      · rw [hrep] at hbody
        simp only [List.mem_flatMap] at hbody
        obtain ⟨repo, hrm, hbody⟩ := hbody
        rcases hcont : strContains repo query with _ | _
        · rw [hcont] at hbody
          simp at hbody
        · rw [hcont] at hbody
          simp only [if_true] at hbody
          rcases htags : list_tags repo (net.tagsResp repo) with e | tags
          · rw [htags] at hbody
            simp at hbody
          · rw [htags] at hbody
            simp only [List.mem_flatMap] at hbody
            obtain ⟨tag, htm, hbody⟩ := hbody
            rcases hinfo : get_image_info repo tag now (net.manifestResp repo tag)
                (net.configResp repo tag) with e | info₁
            · rw [hinfo] at hbody
              simp at hbody
            · rw [hinfo] at hbody
              simp only [List.mem_singleton, Prod.mk.injEq] at hbody
              obtain ⟨hn, hi⟩ := hbody
              subst hn
              subst hi
              exact ⟨net, hreg, repos, hrep, repo, hrm, hcont, tags, htags, tag, htm, hinfo⟩
    · rintro ⟨net, hreg, repos, hrep, repo, hrm, hcont, tags, htags, tag, htm, hinfo⟩
      rw [List.mem_flatMap]
      refine ⟨(rname, net), hreg, ?_⟩
      rw [hrep]
      simp only [List.mem_flatMap]
      refine ⟨repo, hrm, ?_⟩
      rw [hcont]
      simp only [if_true]
      rw [htags]
      simp only [List.mem_flatMap]
      refine ⟨tag, htm, ?_⟩
      rw [hinfo]
      simp

/-- Witness for C1: the spec example federation where registry A errors
entirely and registry B returns one matching repository with two tags: the
call succeeds with exactly the two results of B, and the membership
characterization applies to the first of them. -/
theorem C1_witness :
    search_images wRegs 0 "ngin" = .ok wResults ∧
    ("B", wImageInfo "nginx" "latest") ∈ wResults :=
  ⟨by rfl,
   ((C1_search_images_union wRegs 0 "ngin").2 wResults (by rfl) "B"
       (wImageInfo "nginx" "latest")).mpr
     ⟨wNetUp, by simp [wRegs], ["nginx"], rfl, "nginx", by simp, by rfl,
      ["latest", "alpine"], by rfl, "latest", by simp, by rfl⟩⟩

end GPanel
